import Mathlib

/-
Verification of the volumetric patch-extraction pipeline of the CBCT-to-CT
repository (projects/nki_cervix_cbct_to_ct/cbcttoct_dataset.py,
data/npy_unaligned_3d_dataset.py).

Arrays are modelled in numpy order (z, y, x) as a shape triple plus a total
value function; intensities are integers (Hounsfield units) and only the
normalizer works over ℚ.  Helper modules of the repository that are imported
by the datasets but whose files are not part of the sources here
(midaGAN.data.utils.normalization, .stochastic_focal_patching, .body_mask,
.fov_truncate, .register_truncate, sitk_utils, midaGAN.utils.io) are modelled
from the specification; each such definition says so in its doc comment.
-/

/-- Integer-valued 3D array: numpy-order shape (z, y, x) and a total value
    function over indices. -/
structure Arr3 where
  shape : ℕ × ℕ × ℕ
  val : ℕ → ℕ → ℕ → ℤ

/-- Rational-valued 3D array (result of normalization / denormalization). -/
structure ArrQ where
  shape : ℕ × ℕ × ℕ
  val : ℕ → ℕ → ℕ → ℚ

/-- A per-axis index box ((z_start, z_stop), (y_start, y_stop), (x_start, x_stop)),
    half-open on every axis.  In the python source the pairs are unpacked under
    the names (z_max, z_min) etc., where the first component is the slice start. -/
def Box : Type := (ℕ × ℕ) × (ℕ × ℕ) × (ℕ × ℕ)

/-- Componentwise comparison: every axis of `s` is at least `p`. -/
def patchLE (p s : ℕ × ℕ × ℕ) : Prop :=
  p.1 ≤ s.1 ∧ p.2.1 ≤ s.2.1 ∧ p.2.2 ≤ s.2.2

instance (p s : ℕ × ℕ × ℕ) : Decidable (patchLE p s) := by
  unfold patchLE; infer_instance

/-- Index triple lies inside a box. -/
def inBox (b : Box) (i j k : ℕ) : Prop :=
  b.1.1 ≤ i ∧ i < b.1.2 ∧ b.2.1.1 ≤ j ∧ j < b.2.1.2 ∧ b.2.2.1 ≤ k ∧ k < b.2.2.2

instance (b : Box) (i j k : ℕ) : Decidable (inBox b i j k) := by
  unfold inBox; infer_instance

/-- Crop an array to a box: `a[z0:z1, y0:y1, x0:x1]`. -/
def cropBox (a : Arr3) (b : Box) : Arr3 where
  shape := (b.1.2 - b.1.1, b.2.1.2 - b.2.1.1, b.2.2.2 - b.2.2.1)
  val := fun i j k => a.val (b.1.1 + i) (b.2.1.1 + j) (b.2.2.1 + k)

/-- Crop a patch of size `sz` starting at offset `off`. -/
def cropAt (a : Arr3) (off sz : ℕ × ℕ × ℕ) : Arr3 where
  shape := sz
  val := fun i j k => a.val (off.1 + i) (off.2.1 + j) (off.2.2 + k)

/-- Pointwise map over an integer array. -/
def mapArr (f : ℤ → ℤ) (a : Arr3) : Arr3 where
  shape := a.shape
  val := fun i j k => f (a.val i j k)

-- ---------------------------------------------------------------------------
-- Normalizer (midaGAN.data.utils.normalization, not among the sources)
-- ---------------------------------------------------------------------------

/-- Clip a rational intensity to the interval [lo, hi]. -/
def clipQ (x lo hi : ℚ) : ℚ := max lo (min x hi)

/-- Modelled from the spec: `min_max_normalize` of
    midaGAN.data.utils.normalization (file not among the sources).  §4.6:
    "clip intensity to [hu_min, hu_max], then linearly map to [-1, 1]". -/
def min_max_normalize (x lo hi : ℚ) : ℚ :=
  (clipQ x lo hi - lo) / (hi - lo) * 2 - 1

/-- Modelled from the spec: `min_max_denormalize` of
    midaGAN.data.utils.normalization (file not among the sources).  §4.6: the
    exact algebraic inverse of the forward affine map onto [hu_min, hu_max]. -/
def min_max_denormalize (y lo hi : ℚ) : ℚ :=
  (y + 1) / 2 * (hi - lo) + lo

/-- torch.clamp on an integer intensity. -/
def clampZ (x lo hi : ℤ) : ℤ := min (max x lo) hi

/-- torch.clamp mapped over an array (lines 177-178 / 267 of the dataset). -/
def clampArr (a : Arr3) (lo hi : ℤ) : Arr3 :=
  mapArr (fun x => clampZ x lo hi) a

/-- min_max_normalize mapped over an array (lines 181-182 / 269). -/
def normalizeArr (a : Arr3) (lo hi : ℤ) : ArrQ where
  shape := a.shape
  val := fun i j k => min_max_normalize (a.val i j k : ℚ) (lo : ℚ) (hi : ℚ)

lemma clipQ_of_mem (x lo hi : ℚ) (h1 : lo ≤ x) (h2 : x ≤ hi) :
    clipQ x lo hi = x := by
  unfold clipQ
  rw [min_eq_left h2, max_eq_right h1]

lemma min_max_roundtrip_clip (x lo hi : ℚ) (h : lo < hi) :
    min_max_denormalize (min_max_normalize x lo hi) lo hi = clipQ x lo hi := by
  unfold min_max_denormalize min_max_normalize
  have hne : hi - lo ≠ 0 := sub_ne_zero.mpr (ne_of_gt h)
  field_simp
  ring

lemma min_max_roundtrip (x lo hi : ℚ) (h : lo < hi) (h1 : lo ≤ x) (h2 : x ≤ hi) :
    min_max_denormalize (min_max_normalize x lo hi) lo hi = x := by
  rw [min_max_roundtrip_clip x lo hi h, clipQ_of_mem x lo hi h1 h2]

lemma min_max_normalize_below (x lo hi : ℚ) (h : lo < hi) (hx : x < lo) :
    min_max_normalize x lo hi = -1 := by
  unfold min_max_normalize clipQ
  have hmin : min x hi = x := min_eq_left (le_of_lt (lt_trans hx h))
  have hmax : max lo x = lo := max_eq_left (le_of_lt hx)
  rw [hmin, hmax]
  simp

lemma min_max_normalize_above (x lo hi : ℚ) (h : lo < hi) (hx : hi < x) :
    min_max_normalize x lo hi = 1 := by
  unfold min_max_normalize clipQ
  have hmin : min x hi = hi := min_eq_right (le_of_lt hx)
  have hmax : max lo hi = hi := max_eq_right (le_of_lt h)
  rw [hmin, hmax]
  have hne : hi - lo ≠ 0 := sub_ne_zero.mpr (ne_of_gt h)
  field_simp
  norm_num

/-- Claim C2: for every scalar intensity x, denormalize (normalize x) equals
    clip x (hu_min, hu_max) within 1e-5 — here it is exactly equal — hence
    equals x for x in [hu_min, hu_max]; and for x strictly outside the range,
    normalize x is exactly -1 (below) or exactly 1 (above). -/
theorem claim_C2_normalizer_roundtrip (x lo hi : ℚ) (h : lo < hi) :
    |min_max_denormalize (min_max_normalize x lo hi) lo hi - clipQ x lo hi|
      ≤ 1 / 100000
    ∧ (lo ≤ x → x ≤ hi →
        min_max_denormalize (min_max_normalize x lo hi) lo hi = x)
    ∧ (x < lo → min_max_normalize x lo hi = -1)
    ∧ (hi < x → min_max_normalize x lo hi = 1) := by
  refine ⟨?_, ?_, ?_, ?_⟩
  · rw [min_max_roundtrip_clip x lo hi h]
    simp
  · intro h1 h2; exact min_max_roundtrip x lo hi h h1 h2
  · intro hx; exact min_max_normalize_below x lo hi h hx
  · intro hx; exact min_max_normalize_above x lo hi h hx

/-- Witness for C2 at the configured hounsfield_units_range (-1024, 2048)
    and x = 0. -/
theorem claim_C2_normalizer_roundtrip_witness :
    |min_max_denormalize (min_max_normalize 0 (-1024) 2048) (-1024) 2048
        - clipQ 0 (-1024) 2048| ≤ 1 / 100000
    ∧ ((-1024 : ℚ) ≤ 0 → (0 : ℚ) ≤ 2048 →
        min_max_denormalize (min_max_normalize 0 (-1024) 2048) (-1024) 2048 = 0)
    ∧ ((0 : ℚ) < -1024 → min_max_normalize 0 (-1024) 2048 = -1)
    ∧ ((2048 : ℚ) < 0 → min_max_normalize 0 (-1024) 2048 = 1) :=
  claim_C2_normalizer_roundtrip 0 (-1024) 2048 (by norm_num)

-- ---------------------------------------------------------------------------
-- SimpleITK-level volume model and helpers (sitk_utils not among the sources)
-- ---------------------------------------------------------------------------

/-- A loaded volume: array plus geometry, mirroring the Volume of the spec's
    data model.  Origin and spacing are per (z, y, x) axis; physical
    coordinates are modelled as integers, which is all the claims need. -/
structure SitkVolume where
  arr : Arr3
  origin : ℤ × ℤ × ℤ
  spacing : ℤ × ℤ × ℤ
  direction : List ℤ
  dtype : String

/-- GetSize of a (z, y, x)-shaped array, in SimpleITK's (x, y, z) order. -/
def sizeXYZ (s : ℕ × ℕ × ℕ) : ℕ × ℕ × ℕ := (s.2.2, s.2.1, s.1)

/-- Modelled from the spec: `sitk_utils.is_volume_smaller_than` (file not
    among the sources); true when some axis of the volume is strictly
    smaller than the corresponding patch axis (§4.4: the guard ensures every
    axis is ≥ the configured patch size). -/
def is_volume_smaller_than (v : SitkVolume) (patch : ℕ × ℕ × ℕ) : Bool :=
  decide (v.arr.shape.1 < patch.1) || decide (v.arr.shape.2.1 < patch.2.1)
    || decide (v.arr.shape.2.2 < patch.2.2)

/-- `volume - 1024` on a SimpleITK volume: shifts intensities, keeps
    geometry (lines 107 / 234 / 358 of the dataset). -/
def sub1024 (v : SitkVolume) : SitkVolume :=
  { v with arr := mapArr (fun x => x - 1024) v.arr }

/-- Crop a volume to a box; the origin moves by spacing times the box start
    on each axis, the rest of the geometry is unchanged. -/
def cropVolume (v : SitkVolume) (b : Box) : SitkVolume where
  arr := cropBox v.arr b
  origin := (v.origin.1 + v.spacing.1 * b.1.1,
             v.origin.2.1 + v.spacing.2.1 * b.2.1.1,
             v.origin.2.2 + v.spacing.2.2 * b.2.2.1)
  spacing := v.spacing
  direction := v.direction
  dtype := v.dtype

-- ---------------------------------------------------------------------------
-- Body Mask & Bounder (midaGAN.data.utils.body_mask, not among the sources)
-- ---------------------------------------------------------------------------

/-- Indices below `n` satisfying `q`. -/
def idxsWhere (n : ℕ) (q : ℕ → Bool) : List ℕ :=
  (List.range n).filter q

/-- Tight bounding box of the voxels of `a` satisfying `fg`; when no voxel
    does, the full-extent box of `a` (§4.3: empty mask falls back to the full
    volume's bounding box). -/
def bboxOf (a : Arr3) (fg : ℕ → ℕ → ℕ → Bool) : Box :=
  let zs := idxsWhere a.shape.1 (fun i =>
    (idxsWhere a.shape.2.1 (fun j =>
      (idxsWhere a.shape.2.2 (fun k => fg i j k)).isEmpty = false)).isEmpty = false)
  let ys := idxsWhere a.shape.2.1 (fun j =>
    (idxsWhere a.shape.1 (fun i =>
      (idxsWhere a.shape.2.2 (fun k => fg i j k)).isEmpty = false)).isEmpty = false)
  let xs := idxsWhere a.shape.2.2 (fun k =>
    (idxsWhere a.shape.1 (fun i =>
      (idxsWhere a.shape.2.1 (fun j => fg i j k)).isEmpty = false)).isEmpty = false)
  if zs.isEmpty then ((0, a.shape.1), (0, a.shape.2.1), (0, a.shape.2.2))
  else ((zs.headD 0, zs.getLastD 0 + 1),
        (ys.headD 0, ys.getLastD 0 + 1),
        (xs.headD 0, xs.getLastD 0 + 1))

/-- Modelled from the spec: `get_body_mask_and_bound` of
    midaGAN.data.utils.body_mask (file not among the sources).  §4.3: segments
    anatomy from background via a single intensity threshold, producing a
    boolean mask (foreground strictly above the threshold) and a tight
    axis-aligned bounding box enclosing foreground voxels, falling back to the
    full volume's box when the mask is empty. -/
def get_body_mask_and_bound (a : Arr3) (thr : ℤ) : (ℕ → ℕ → ℕ → Bool) × Box :=
  let fg : ℕ → ℕ → ℕ → Bool := fun i j k => decide (thr < a.val i j k)
  (fg, bboxOf a fg)

/-- np.where(mask, a, -1024): background voxels overwritten with the air
    sentinel, shape unchanged. -/
def whereMask (mask : ℕ → ℕ → ℕ → Bool) (a : Arr3) : Arr3 where
  shape := a.shape
  val := fun i j k => if mask i j k then a.val i j k else -1024

/-- Modelled from the spec: `apply_body_mask_and_bound` of
    midaGAN.data.utils.body_mask (file not among the sources).  §4.3: two
    orthogonal toggles — `apply_mask` overwrites background with the air
    sentinel, `apply_bound` crops to the bounding box. -/
def apply_body_mask_and_bound (a : Arr3)
    (apply_mask apply_bound : Bool) (thr : ℤ) : Arr3 :=
  let mb := get_body_mask_and_bound a thr
  let a1 := if apply_mask then whereMask mb.1 a else a
  if apply_bound then cropBox a1 mb.2 else a1

-- ---------------------------------------------------------------------------
-- FOV Truncator and Scope Registrar (fov_truncate / register_truncate,
-- not among the sources)
-- ---------------------------------------------------------------------------

/-- Modelled from the spec: `truncate_CBCT_based_on_fov` of
    midaGAN.data.utils.fov_truncate (file not among the sources).  §4.1:
    detects valid content by intensity threshold against the known background
    fill value (air, -1024 after the caller's intensity shift) and crops to
    the bounding box enclosing all valid voxels; when no voxel is valid, the
    fallback box is the full extent, i.e. the volume is returned unchanged. -/
def truncate_CBCT_based_on_fov (v : SitkVolume) : SitkVolume :=
  cropVolume v (bboxOf v.arr (fun i j k => decide ((-1024 : ℤ) < v.arr.val i j k)))

/-- Voxel indices of the secondary axis whose physical positions fall inside
    the primary axis's physical extent. -/
def overlapAxis (pO pS : ℤ) (pN : ℕ) (sO sS : ℤ) (sN : ℕ) : List ℕ :=
  idxsWhere sN (fun k =>
    decide (pO ≤ sO + sS * k) && decide (sO + sS * k < pO + pS * pN))

/-- Modelled from the spec: `truncate_CT_to_scope_of_CBCT` of
    midaGAN.data.utils.register_truncate (file not among the sources).  §4.2:
    computes, physical-space based, the secondary (CT) voxel range overlapping
    the primary (CBCT) volume's physical extent and crops the secondary to it;
    when the computed overlap is empty on some axis the secondary volume is
    kept unmodified. -/
def truncate_CT_to_scope_of_CBCT (CT CBCT : SitkVolume) : SitkVolume :=
  let lz := overlapAxis CBCT.origin.1 CBCT.spacing.1 CBCT.arr.shape.1
              CT.origin.1 CT.spacing.1 CT.arr.shape.1
  let ly := overlapAxis CBCT.origin.2.1 CBCT.spacing.2.1 CBCT.arr.shape.2.1
              CT.origin.2.1 CT.spacing.2.1 CT.arr.shape.2.1
  let lx := overlapAxis CBCT.origin.2.2 CBCT.spacing.2.2 CBCT.arr.shape.2.2
              CT.origin.2.2 CT.spacing.2.2 CT.arr.shape.2.2
  if lz.isEmpty || ly.isEmpty || lx.isEmpty then CT
  else cropVolume CT ((lz.headD 0, lz.getLastD 0 + 1),
                      (ly.headD 0, ly.getLastD 0 + 1),
                      (lx.headD 0, lx.getLastD 0 + 1))

-- ---------------------------------------------------------------------------
-- Size Guard / Padder (midaGAN.data.utils, not among the sources)
-- ---------------------------------------------------------------------------

/-- Modelled from the spec: `size_invalid_check_and_replace` of
    midaGAN.data.utils (file not among the sources).  §4.4 replace policy: if
    the volume is undersized, substitute the first candidate volume (drawn
    from the supplied same-case list) that is at least patch size on every
    axis; exhausting the list yields none, which the caller reports as fatal.
    Candidates stand for the volumes loaded from `replacement_paths`. -/
def size_invalid_check_and_replace (v : SitkVolume) (patch : ℕ × ℕ × ℕ)
    (candidates : List SitkVolume) : Option SitkVolume :=
  if is_volume_smaller_than v patch then
    candidates.find? (fun c => !is_volume_smaller_than c patch)
  else some v

/-- Modelled from the spec: `pad` of midaGAN.data.utils (file not among the
    sources).  §4.4 pad policy: extend the volume with the constant
    background value (air, -1024) up to at least patch size on each deficient
    axis; the original voxels sit at offset zero in the padded canvas. -/
def padArr (patch : ℕ × ℕ × ℕ) (a : Arr3) : Arr3 where
  shape := (max a.shape.1 patch.1, max a.shape.2.1 patch.2.1,
            max a.shape.2.2 patch.2.2)
  val := fun i j k =>
    if i < a.shape.1 ∧ j < a.shape.2.1 ∧ k < a.shape.2.2 then a.val i j k
    else -1024

-- ---------------------------------------------------------------------------
-- Stochastic Focal Patch Sampler (stochastic_focal_patching, not among the
-- sources)
-- ---------------------------------------------------------------------------

/-- Modelled from the spec: the per-axis offset draw of
    `StochasticFocalPatchSampler` (file not among the sources).  §4.5: the
    valid starting-offset range is [0, dim - patch_dim]; the focal
    sub-interval has length p times the range length and is centered on the
    midpoint of the valid range; the offset is drawn uniformly from the focal
    sub-interval.  The draw is modelled by a rational r (0 ≤ r ≤ 1 for a
    genuine draw) mapped affinely over the sub-interval and floored to an
    integer index. -/
def focal_offset (dim patch : ℕ) (p r : ℚ) : ℕ :=
  let L : ℚ := (dim : ℚ) - (patch : ℚ)
  let start : ℚ := L / 2 - p * L / 2
  Nat.floor (start + r * (p * L))

/-- Modelled from the spec: `StochasticFocalPatchSampler.get_patch_pair`
    (file not among the sources).  §4.5: offsets are computed per axis from
    the (shared) volume shape and the identical offset triple is applied to
    both volumes, so the two extracted patches are spatially co-located.
    `r` packages the per-axis randomness of one call. -/
def get_patch_pair (patch : ℕ × ℕ × ℕ) (p : ℚ) (r : ℚ × ℚ × ℚ)
    (a b : Arr3) : Arr3 × Arr3 :=
  let off : ℕ × ℕ × ℕ :=
    (focal_offset a.shape.1 patch.1 p r.1,
     focal_offset a.shape.2.1 patch.2.1 p r.2.1,
     focal_offset a.shape.2.2 patch.2.2 p r.2.2)
  (cropAt a off patch, cropAt b off patch)

/-- The exact center starting offset of the valid range [0, dim - patch]
    on every axis. -/
def centerOffset (shape patch : ℕ × ℕ × ℕ) : ℕ × ℕ × ℕ :=
  ((shape.1 - patch.1) / 2, (shape.2.1 - patch.2.1) / 2,
   (shape.2.2 - patch.2.2) / 2)

lemma focal_offset_zero (dim patch : ℕ) (h : patch ≤ dim) (r : ℚ) :
    focal_offset dim patch 0 r = (dim - patch) / 2 := by
  unfold focal_offset
  simp only [zero_mul, mul_zero, zero_div, sub_zero, add_zero]
  rw [← Nat.cast_sub h]
  rw [show ((2 : ℚ)) = ((2 : ℕ) : ℚ) by norm_num, Nat.floor_div_nat,
    Nat.floor_natCast]

/-- Claim C5: with focal_region_proportion p = 0, for every pair of
    equal-shaped volumes no smaller than the patch size on any axis,
    get_patch_pair selects the exact center starting offset on every axis —
    independently of the random draw r, hence deterministically on every
    call — and applies that identical offset triple to both volumes. -/
theorem claim_C5_center_sampling (a b : Arr3) (patch : ℕ × ℕ × ℕ)
    (r : ℚ × ℚ × ℚ) (hsh : a.shape = b.shape)
    (hz : patch.1 ≤ a.shape.1) (hy : patch.2.1 ≤ a.shape.2.1)
    (hx : patch.2.2 ≤ a.shape.2.2) :
    get_patch_pair patch 0 r a b =
      (cropAt a (centerOffset a.shape patch) patch,
       cropAt b (centerOffset a.shape patch) patch) := by
  unfold get_patch_pair centerOffset
  rw [focal_offset_zero a.shape.1 patch.1 hz r.1,
      focal_offset_zero a.shape.2.1 patch.2.1 hy r.2.1,
      focal_offset_zero a.shape.2.2 patch.2.2 hx r.2.2]

/-- Witness for C5: two concrete 3x3x3 volumes, patch (1,1,1), an arbitrary
    nonzero random draw; the sampler still picks the center offset (1,1,1). -/
theorem claim_C5_center_sampling_witness :
    get_patch_pair (1, 1, 1) 0 (1/3, 2/3, 1)
        (Arr3.mk (3, 3, 3) (fun i j k => (i + j + k : ℤ)))
        (Arr3.mk (3, 3, 3) (fun i j k => (i * j * k : ℤ))) =
      (cropAt (Arr3.mk (3, 3, 3) (fun i j k => (i + j + k : ℤ)))
         (centerOffset (3, 3, 3) (1, 1, 1)) (1, 1, 1),
       cropAt (Arr3.mk (3, 3, 3) (fun i j k => (i * j * k : ℤ)))
         (centerOffset (3, 3, 3) (1, 1, 1)) (1, 1, 1)) :=
  claim_C5_center_sampling _ _ (1, 1, 1) (1/3, 2/3, 1) rfl
    (by decide) (by decide) (by decide)

-- ---------------------------------------------------------------------------
-- Training dataset: CBCTtoCTDataset.__getitem__ (cbcttoct_dataset.py 79-191)
-- ---------------------------------------------------------------------------

/-- Configuration surface of CBCTtoCTDatasetConfig (cbcttoct_dataset.py
    34-44). -/
structure TrainCfg where
  patch_size : ℕ × ℕ × ℕ
  hu_min : ℤ
  hu_max : ℤ
  focal_region_proportion : ℚ
  enable_masking : Bool
  enable_bounding : Bool
  ct_mask_threshold : ℤ
  cbct_mask_threshold : ℤ
  pad : Bool

/-- A masking step as seen by the caller's try/except: it either returns the
    processed array or raises.  The standard instantiation wraps
    apply_body_mask_and_bound, which never raises in this model; the
    parameter lets theorems speak about the source's except-branch. -/
def maskStd : Arr3 → Bool → Bool → ℤ → Except Unit Arr3 :=
  fun a m b t => Except.ok (apply_body_mask_and_bound a m b t)

/-- CBCTtoCTDataset.__getitem__, lines 86-171: everything between loading the
    two volumes and the patch-sampler call, returning the two arrays exactly
    as they stand at the moment `self.patch_sampler.get_patch_pair` runs
    (line 174).  The volumes and the same-case replacement candidate lists
    stand for the randomly chosen and loaded paths; `maskCBCT`/`maskCT` model
    the two try/except-guarded apply_body_mask_and_bound calls (139-150),
    whose failure leaves the array unchanged. -/
def getitemPre (cfg : TrainCfg) (CBCT0 CT0 : SitkVolume)
    (candsCBCT candsCT : List SitkVolume)
    (maskCBCT maskCT : Arr3 → Bool → Bool → ℤ → Except Unit Arr3) :
    Except String (Arr3 × Arr3) :=
  -- lines 95-100: replace policy size guard (only when pad is disabled)
  let rCBCT := if cfg.pad then some CBCT0
    else size_invalid_check_and_replace CBCT0 cfg.patch_size candsCBCT
  let rCT := if cfg.pad then some CT0
    else size_invalid_check_and_replace CT0 cfg.patch_size candsCT
  match rCBCT, rCT with
  | some CBCT1, some CT1 =>
    -- line 107: subtract 1024 to map grayscale to approximate HU
    let CBCT2 := sub1024 CBCT1
    -- line 110: truncate CBCT based on the FOV
    let CBCT3 := truncate_CBCT_based_on_fov CBCT2
    -- lines 113-119: size re-check after truncation (replace policy only)
    if (is_volume_smaller_than CBCT3 cfg.patch_size
          || is_volume_smaller_than CT1 cfg.patch_size) && !cfg.pad then
      Except.error "Volume size not smaller than the defined patch size."
    else
      -- lines 122-129: limit CT to the part of the body shown in CBCT
      let CTtrunc := truncate_CT_to_scope_of_CBCT CT1 CBCT3
      let CT2 := if is_volume_smaller_than CTtrunc cfg.patch_size && !cfg.pad
        then CT1 else CTtrunc
      -- lines 134-135: drop to numpy arrays
      let cbctA := CBCT3.arr
      let ctA := CT2.arr
      -- lines 139-150: try/except around masking and bounding
      let cbctB := match maskCBCT cbctA cfg.enable_masking cfg.enable_bounding
          cfg.cbct_mask_threshold with
        | Except.ok a => a
        | Except.error _ => cbctA
      let ctB := match maskCT ctA cfg.enable_masking cfg.enable_bounding
          cfg.ct_mask_threshold with
        | Except.ok a => a
        | Except.error _ => ctA
      -- lines 153-155: pad policy
      let cbctC := if cfg.pad then padArr cfg.patch_size cbctB else cbctB
      let ctC := if cfg.pad then padArr cfg.patch_size ctB else ctB
      Except.ok (cbctC, ctC)
  | _, _ =>
    -- lines 103-104
    Except.error "Suitable replacement volume could not be found!"

/-- Shapes of the two arrays handed to the patch sampler, when an item is
    produced at all. -/
def preShapes (r : Except String (Arr3 × Arr3)) :
    Option ((ℕ × ℕ × ℕ) × (ℕ × ℕ × ℕ)) :=
  match r with
  | Except.ok p => some (p.1.shape, p.2.shape)
  | Except.error _ => none

lemma not_smaller_patchLE (v : SitkVolume) (patch : ℕ × ℕ × ℕ)
    (h : is_volume_smaller_than v patch = false) : patchLE patch v.arr.shape := by
  unfold is_volume_smaller_than at h
  unfold patchLE
  simp only [Bool.or_eq_false_iff, decide_eq_false_iff_not, not_lt] at h
  exact ⟨h.1.1, h.1.2, h.2⟩

lemma mask_nobound_shape (a : Arr3) (m : Bool) (t : ℤ) :
    (apply_body_mask_and_bound a m false t).shape = a.shape := by
  unfold apply_body_mask_and_bound whereMask
  cases m <;> simp

lemma padArr_patchLE (patch : ℕ × ℕ × ℕ) (a : Arr3) :
    patchLE patch (padArr patch a).shape := by
  unfold padArr patchLE
  exact ⟨le_max_right _ _, le_max_right _ _, le_max_right _ _⟩

/-- Claim C1, amended: under the pad policy, both arrays handed to the patch
    sampler are at least patch_size on every axis (pad runs after body-mask
    bounding, lines 153-155); under the replace policy the guarantee holds
    when body-mask bounding is disabled, because the last size checks (lines
    113-119 and 125-129) run before apply_body_mask_and_bound.  When the
    replace policy is combined with bounding, no size check runs after the
    crop, and the guarantee fails (see the counterexample). -/
theorem claim_C1_sampler_size_guarantee (cfg : TrainCfg)
    (CBCT0 CT0 : SitkVolume) (candsCBCT candsCT : List SitkVolume)
    (s1 s2 : ℕ × ℕ × ℕ)
    (hpol : cfg.pad = true ∨ cfg.enable_bounding = false)
    (h : preShapes (getitemPre cfg CBCT0 CT0 candsCBCT candsCT maskStd maskStd)
          = some (s1, s2)) :
    patchLE cfg.patch_size s1 ∧ patchLE cfg.patch_size s2 := by
  by_cases hpad : cfg.pad = true
  · -- pad policy: both arrays were just padded up to patch size
    rw [getitemPre, hpad] at h
    simp only [if_true, Bool.not_true, Bool.and_false, if_false,
      Bool.false_eq_true] at h
    unfold preShapes at h
    simp only [Option.some.injEq, Prod.mk.injEq] at h
    rw [← h.1, ← h.2]
    exact ⟨padArr_patchLE _ _, padArr_patchLE _ _⟩
  · -- replace policy with bounding disabled
    have hpf : cfg.pad = false := by
      cases hp : cfg.pad
      · rfl
      · exact absurd hp hpad
    have hbf : cfg.enable_bounding = false := by
      rcases hpol with hp | hb
      · exact absurd hp hpad
      · exact hb
    rw [getitemPre, hpf] at h
    rcases hB : size_invalid_check_and_replace CBCT0 cfg.patch_size candsCBCT
      with _ | CBCT1
    · rcases hT : size_invalid_check_and_replace CT0 cfg.patch_size candsCT
        with _ | CT1 <;> simp [preShapes, hB, hT] at h
    · rcases hT : size_invalid_check_and_replace CT0 cfg.patch_size candsCT
        with _ | CT1
      · simp [preShapes, hB, hT] at h
      · simp only [hB, hT, Bool.false_eq_true, if_false, Bool.not_false,
          Bool.and_true] at h
        rcases hchk : (is_volume_smaller_than
            (truncate_CBCT_based_on_fov (sub1024 CBCT1)) cfg.patch_size
            || is_volume_smaller_than CT1 cfg.patch_size) with _ | _
        · rw [hchk] at h
          simp only [Bool.false_eq_true, if_false, hbf, maskStd] at h
          have hc : is_volume_smaller_than
              (truncate_CBCT_based_on_fov (sub1024 CBCT1)) cfg.patch_size
              = false ∧ is_volume_smaller_than CT1 cfg.patch_size = false := by
            simpa [Bool.or_eq_false_iff] using hchk
          unfold preShapes at h
          simp only [Option.some.injEq, Prod.mk.injEq] at h
          constructor
          · rw [← h.1, mask_nobound_shape]
            exact not_smaller_patchLE _ _ hc.1
          · rw [← h.2, mask_nobound_shape]
            rcases hct : is_volume_smaller_than
                (truncate_CT_to_scope_of_CBCT CT1
                  (truncate_CBCT_based_on_fov (sub1024 CBCT1)))
                cfg.patch_size with _ | _
            · simp only [Bool.false_eq_true, if_false]
              exact not_smaller_patchLE _ _ hct
            · simp only [if_true]
              exact not_smaller_patchLE _ _ hc.2
        · rw [hchk] at h
          simp [preShapes] at h

/-- The CBCT volume of the C1 scenario: 4x4x4, grayscale 224 everywhere
    except a single bright voxel at (1,1,1); after the dataset's -1024 shift
    the values are -800 and 0. -/
def cbctSmallBody : SitkVolume where
  arr := { shape := (4, 4, 4),
           val := fun i j k => if i = 1 ∧ j = 1 ∧ k = 1 then 1024 else 224 }
  origin := (0, 0, 0)
  spacing := (1, 1, 1)
  direction := [1, 0, 0, 0, 1, 0, 0, 0, 1]
  dtype := "int16"

/-- The CT volume of the C1 scenario: 4x4x4, already in HU, -800 everywhere
    except a single voxel of 0 at (1,1,1). -/
def ctSmallBody : SitkVolume where
  arr := { shape := (4, 4, 4),
           val := fun i j k => if i = 1 ∧ j = 1 ∧ k = 1 then 0 else -800 }
  origin := (0, 0, 0)
  spacing := (1, 1, 1)
  direction := [1, 0, 0, 0, 1, 0, 0, 0, 1]
  dtype := "int16"

/-- Replace-policy configuration with bounding enabled, patch size (2,2,2). -/
def cfgReplaceBound : TrainCfg where
  patch_size := (2, 2, 2)
  hu_min := -1024
  hu_max := 2048
  focal_region_proportion := 0
  enable_masking := false
  enable_bounding := true
  ct_mask_threshold := -300
  cbct_mask_threshold := -700
  pad := false

/-- The same scenario under the pad policy. -/
def cfgPadBound : TrainCfg where
  patch_size := (2, 2, 2)
  hu_min := -1024
  hu_max := 2048
  focal_region_proportion := 0
  enable_masking := false
  enable_bounding := true
  ct_mask_threshold := -300
  cbct_mask_threshold := -700
  pad := true

/-- Counterexample to C1 as stated: under the replace policy with bounding
    enabled, the item is produced (no error is raised) yet both arrays reach
    the patch sampler with shape (1,1,1), strictly smaller than the (2,2,2)
    patch size — body-mask bounding cropped them after the last size check. -/
theorem claim_C1_counterexample :
    preShapes (getitemPre cfgReplaceBound cbctSmallBody ctSmallBody [] []
        maskStd maskStd) = some ((1, 1, 1), (1, 1, 1))
    ∧ ¬ patchLE cfgReplaceBound.patch_size (1, 1, 1) := by
  constructor
  · decide
  · decide

/-- Witness for the amended C1: the identical scenario under the pad policy
    reaches the sampler with shape (2,2,2) on both arrays, and the theorem
    yields that the patch size fits. -/
theorem claim_C1_sampler_size_guarantee_witness :
    patchLE cfgPadBound.patch_size (2, 2, 2)
    ∧ patchLE cfgPadBound.patch_size (2, 2, 2) :=
  claim_C1_sampler_size_guarantee cfgPadBound cbctSmallBody ctSmallBody [] []
    (2, 2, 2) (2, 2, 2) (Or.inl rfl) (by decide)

/-- Claim C6: under the replace policy (pad disabled), when the original
    volume is undersized and every replacement candidate for the case is
    undersized as well — the candidate list is exhausted — __getitem__ raises
    (RuntimeError, lines 103-104) instead of returning a patch pair. -/
theorem claim_C6_replace_exhaustion_fatal (cfg : TrainCfg)
    (CBCT0 CT0 : SitkVolume) (candsCBCT candsCT : List SitkVolume)
    (mB mT : Arr3 → Bool → Bool → ℤ → Except Unit Arr3)
    (hpad : cfg.pad = false)
    (hsmall : is_volume_smaller_than CBCT0 cfg.patch_size = true)
    (hcands : ∀ c ∈ candsCBCT, is_volume_smaller_than c cfg.patch_size = true) :
    getitemPre cfg CBCT0 CT0 candsCBCT candsCT mB mT
      = Except.error "Suitable replacement volume could not be found!" := by
  have hnone : size_invalid_check_and_replace CBCT0 cfg.patch_size candsCBCT
      = none := by
    unfold size_invalid_check_and_replace
    rw [hsmall]
    simp only [if_true]
    rw [List.find?_eq_none]
    intro c hc
    simp [hcands c hc]
  rw [getitemPre, hpad]
  simp only [Bool.false_eq_true, if_false, hnone]

/-- Witness for C6: a 1x1x1 CBCT volume under patch size (2,2,2) with an
    empty candidate list yields the fatal replacement error. -/
theorem claim_C6_replace_exhaustion_fatal_witness :
    getitemPre cfgReplaceBound
      { cbctSmallBody with arr := { shape := (1, 1, 1), val := fun _ _ _ => 0 } }
      ctSmallBody [] [] maskStd maskStd
      = Except.error "Suitable replacement volume could not be found!" :=
  claim_C6_replace_exhaustion_fatal cfgReplaceBound
    { cbctSmallBody with arr := { shape := (1, 1, 1), val := fun _ _ _ => 0 } }
    ctSmallBody [] [] maskStd maskStd rfl (by decide) (by intro c hc; cases hc)

/-- Claim C7: the try/except around apply_body_mask_and_bound (lines 139-150)
    makes a masking failure recoverable: if the call for the CBCT (or the CT)
    volume raises, __getitem__ continues with that volume's array unmasked and
    unbounded, producing the same result as if the masking step had returned
    its input unchanged — the run is not aborted. -/
theorem claim_C7_masking_failure_recoverable (cfg : TrainCfg)
    (CBCT0 CT0 : SitkVolume) (candsCBCT candsCT : List SitkVolume)
    (fC fT : Arr3 → Bool → Bool → ℤ → Except Unit Arr3) :
    ((∀ a m b t, fC a m b t = Except.error ()) →
      getitemPre cfg CBCT0 CT0 candsCBCT candsCT fC fT
        = getitemPre cfg CBCT0 CT0 candsCBCT candsCT
            (fun a _ _ _ => Except.ok a) fT)
    ∧ ((∀ a m b t, fT a m b t = Except.error ()) →
      getitemPre cfg CBCT0 CT0 candsCBCT candsCT fC fT
        = getitemPre cfg CBCT0 CT0 candsCBCT candsCT fC
            (fun a _ _ _ => Except.ok a)) := by
  constructor
  · intro hf
    simp only [getitemPre, hf]
  · intro hf
    simp only [getitemPre, hf]

/-- Witness for C7: with a masking step that always raises, the concrete C1
    scenario produces the same item as with a masking step that returns its
    input unchanged. -/
theorem claim_C7_masking_failure_recoverable_witness :
    getitemPre cfgPadBound cbctSmallBody ctSmallBody [] []
        (fun _ _ _ _ => Except.error ()) maskStd
      = getitemPre cfgPadBound cbctSmallBody ctSmallBody [] []
          (fun a _ _ _ => Except.ok a) maskStd :=
  (claim_C7_masking_failure_recoverable cfgPadBound cbctSmallBody ctSmallBody
    [] [] (fun _ _ _ _ => Except.error ()) maskStd).1 (fun _ _ _ _ => rfl)

-- ---------------------------------------------------------------------------
-- Inference dataset: CBCTtoCTInferenceDataset (cbcttoct_dataset.py 207-300)
-- ---------------------------------------------------------------------------

/-- Configuration surface of CBCTtoCTInferenceDatasetConfig (lines 198-204). -/
structure InfCfg where
  hu_min : ℤ
  hu_max : ℤ
  enable_masking : Bool
  enable_bounding : Bool
  cbct_mask_threshold : ℤ

/-- The metadata assembled by CBCTtoCTInferenceDataset.__getitem__ (lines
    238-243 and 260): in the python source it is the list [path, size, origin,
    spacing, direction, dtype] with the bounds appended as the last element. -/
structure Metadata where
  path : String
  size : ℕ × ℕ × ℕ
  origin : ℤ × ℤ × ℤ
  spacing : ℤ × ℤ × ℤ
  direction : List ℤ
  dtype : String
  bounds : Box

/-- CBCTtoCTInferenceDataset.__getitem__, lines 230-273: the loaded volume
    stands for `sitk_utils.load(path)`; the channel dimension added by
    unsqueeze is not modelled. -/
def infGetitem (cfg : InfCfg) (path : String) (v0 : SitkVolume) :
    ArrQ × Metadata :=
  -- line 234
  let v1 := sub1024 v0
  -- line 236
  let v2 := truncate_CBCT_based_on_fov v1
  -- lines 245-249
  let arr := v2.arr
  let mb := get_body_mask_and_bound arr cfg.cbct_mask_threshold
  -- lines 252-253
  let arr1 := if cfg.enable_masking then whereMask mb.1 arr else arr
  -- lines 256-257
  let arr2 := if cfg.enable_bounding then cropBox arr1 mb.2 else arr1
  -- lines 267-269
  let t := normalizeArr (clampArr arr2 cfg.hu_min cfg.hu_max)
    cfg.hu_min cfg.hu_max
  -- lines 238-243 and 260: metadata is recorded from v2, the volume after
  -- the intensity shift and the FOV truncation, with the bounds appended last
  (t, { path := path, size := sizeXYZ v2.arr.shape, origin := v2.origin,
        spacing := v2.spacing, direction := v2.direction, dtype := v2.dtype,
        bounds := mb.2 })

/-- full_tensor[b0s:b0e, b1s:b1e, b2s:b2e] = tensor (line 287). -/
def writeAtQ (base : ArrQ) (b : Box) (t : ArrQ) : ArrQ where
  shape := base.shape
  val := fun i j k =>
    if inBox b i j k then t.val (i - b.1.1) (j - b.2.1.1) (k - b.2.2.1)
    else base.val i j k

/-- CBCTtoCTInferenceDataset.save, lines 278-287: denormalize the tensor,
    allocate a canvas of the original full size (size is stored in (x, y, z)
    order, the canvas is (size[2], size[1], size[0])) filled with the air
    sentinel -1024, and write the tensor at the recorded bounds.  The final
    sitk conversion and file write (lines 289-300) are out of scope. -/
def saveCanvas (hu_min hu_max : ℤ) (t : ArrQ) (size : ℕ × ℕ × ℕ) (b : Box) :
    ArrQ :=
  let t1 : ArrQ :=
    ⟨t.shape, fun i j k => min_max_denormalize (t.val i j k) hu_min hu_max⟩
  let full : ArrQ := ⟨(size.2.2, size.2.1, size.1), fun _ _ _ => -1024⟩
  writeAtQ full b t1

/-- Shape of the region described by a box. -/
def boxShape (b : Box) : ℕ × ℕ × ℕ :=
  (b.1.2 - b.1.1, b.2.1.2 - b.2.1.1, b.2.2.2 - b.2.2.1)

lemma clampZ_of_mem (x lo hi : ℤ) (h1 : lo ≤ x) (h2 : x ≤ hi) :
    clampZ x lo hi = x := by
  unfold clampZ
  rw [max_eq_left h1, min_eq_left h2]

/-- Claim C3: for a volume V and a box B inside V's extent whose voxels lie
    in the configured HU range, cropping V to B, normalizing as the inference
    loader does, and reconstructing via save yields a canvas of V's full
    size whose values are V's exact values inside B and the air sentinel
    -1024 everywhere else. -/
theorem claim_C3_reconstructor_inverse (V : Arr3) (B : Box) (lo hi : ℤ)
    (i j k : ℕ) (hlohi : lo < hi)
    (hbox : B.1.2 ≤ V.shape.1 ∧ B.2.1.2 ≤ V.shape.2.1 ∧ B.2.2.2 ≤ V.shape.2.2)
    (hrange : ∀ i' < B.1.2, ∀ j' < B.2.1.2, ∀ k' < B.2.2.2,
        lo ≤ V.val i' j' k' ∧ V.val i' j' k' ≤ hi) :
    (saveCanvas lo hi (normalizeArr (clampArr (cropBox V B) lo hi) lo hi)
        (sizeXYZ V.shape) B).shape = V.shape
    ∧ (saveCanvas lo hi (normalizeArr (clampArr (cropBox V B) lo hi) lo hi)
        (sizeXYZ V.shape) B).val i j k
      = if inBox B i j k then (V.val i j k : ℚ) else -1024 := by
  constructor
  · simp [saveCanvas, writeAtQ, sizeXYZ]
  · by_cases hin : inBox B i j k
    · obtain ⟨hz1, hz2, hy1, hy2, hx1, hx2⟩ := hin
      have hv := hrange i hz2 j hy2 k hx2
      simp only [saveCanvas, writeAtQ, normalizeArr, clampArr, mapArr,
        cropBox]
      rw [if_pos ⟨hz1, hz2, hy1, hy2, hx1, hx2⟩,
        if_pos ⟨hz1, hz2, hy1, hy2, hx1, hx2⟩]
      rw [Nat.add_sub_cancel' hz1, Nat.add_sub_cancel' hy1,
        Nat.add_sub_cancel' hx1]
      rw [clampZ_of_mem _ _ _ hv.1 hv.2]
      exact min_max_roundtrip _ _ _ (by exact_mod_cast hlohi)
        (by exact_mod_cast hv.1) (by exact_mod_cast hv.2)
    · simp only [saveCanvas, writeAtQ]
      rw [if_neg hin, if_neg hin]

/-- Witness for C3: a concrete 2x2x2 volume, box ((0,1),(0,2),(1,2)), the
    configured HU range, evaluated at index (0,1,1). -/
theorem claim_C3_reconstructor_inverse_witness :
    (saveCanvas (-1024) 2048
        (normalizeArr (clampArr (cropBox
          (Arr3.mk (2, 2, 2) (fun i j k => (i + j + k : ℤ)))
          ((0, 1), (0, 2), (1, 2))) (-1024) 2048) (-1024) 2048)
        (sizeXYZ (2, 2, 2)) ((0, 1), (0, 2), (1, 2))).shape = (2, 2, 2)
    ∧ (saveCanvas (-1024) 2048
        (normalizeArr (clampArr (cropBox
          (Arr3.mk (2, 2, 2) (fun i j k => (i + j + k : ℤ)))
          ((0, 1), (0, 2), (1, 2))) (-1024) 2048) (-1024) 2048)
        (sizeXYZ (2, 2, 2)) ((0, 1), (0, 2), (1, 2))).val 0 1 1
      = if inBox ((0, 1), (0, 2), (1, 2)) 0 1 1
        then ((Arr3.mk (2, 2, 2) (fun i j k => (i + j + k : ℤ))).val 0 1 1 : ℚ)
        else -1024 :=
  claim_C3_reconstructor_inverse
    (Arr3.mk (2, 2, 2) (fun i j k => (i + j + k : ℤ)))
    ((0, 1), (0, 2), (1, 2)) (-1024) 2048 0 1 1
    (by decide) (by decide) (by decide)

/-- Default inference configuration (CBCTtoCTInferenceDatasetConfig,
    lines 198-204): masking off, bounding on. -/
def cfgInf : InfCfg where
  hu_min := -1024
  hu_max := 2048
  enable_masking := false
  enable_bounding := true
  cbct_mask_threshold := -700

/-- Inference configuration with bounding disabled as well. -/
def cfgInfNoBound : InfCfg where
  hu_min := -1024
  hu_max := 2048
  enable_masking := false
  enable_bounding := false
  cbct_mask_threshold := -700

/-- A 3x1x1 volume whose first and last slices hold the background fill
    value: grayscale (0, 1024, 0), i.e. (-1024, 0, -1024) after the shift,
    so FOV truncation crops it to a single slice. -/
def cbctEdgeFill : SitkVolume where
  arr := { shape := (3, 1, 1), val := fun i _ _ => if i = 1 then 1024 else 0 }
  origin := (0, 0, 0)
  spacing := (1, 1, 1)
  direction := [1, 0, 0, 0, 1, 0, 0, 0, 1]
  dtype := "int16"

/-- Counterexample to C4 as stated: the metadata's recorded size is not the
    originally loaded volume's size — FOV truncation runs before the metadata
    is assembled (line 236 before line 238) and crops the 3x1x1 volume to
    1x1x1. -/
theorem claim_C4_counterexample :
    (infGetitem cfgInf "patient1/CBCT/scan.nrrd" cbctEdgeFill).2.size
      ≠ sizeXYZ cbctEdgeFill.arr.shape := by
  decide

/-- Claim C4, amended: the ReconstructionMetadata records the original file
    identity and the size, origin, spacing, direction and dtype of the volume
    as it stands after the intensity shift and FOV truncation — spacing,
    direction and dtype coincide with the originally loaded volume's, while
    size and origin may differ when truncation crops — together with the
    body-mask BoundingBox; it is the only state save receives besides the
    output tensor. -/
theorem claim_C4_metadata_contents (cfg : InfCfg) (path : String)
    (v0 : SitkVolume) :
    (infGetitem cfg path v0).2.path = path
    ∧ (infGetitem cfg path v0).2.size
        = sizeXYZ (truncate_CBCT_based_on_fov (sub1024 v0)).arr.shape
    ∧ (infGetitem cfg path v0).2.origin
        = (truncate_CBCT_based_on_fov (sub1024 v0)).origin
    ∧ (infGetitem cfg path v0).2.spacing = v0.spacing
    ∧ (infGetitem cfg path v0).2.direction = v0.direction
    ∧ (infGetitem cfg path v0).2.dtype = v0.dtype
    ∧ (infGetitem cfg path v0).2.bounds
        = (get_body_mask_and_bound
            (truncate_CBCT_based_on_fov (sub1024 v0)).arr
            cfg.cbct_mask_threshold).2 :=
  ⟨rfl, rfl, rfl, rfl, rfl, rfl, rfl⟩

/-- A 3x1x1 volume with grayscale (300, 1024, 300): after the shift every
    voxel is above the fill value (no FOV crop) but only the middle voxel is
    above the -700 body-mask threshold. -/
def cbctDimBody : SitkVolume where
  arr := { shape := (3, 1, 1), val := fun i _ _ => if i = 1 then 1024 else 300 }
  origin := (0, 0, 0)
  spacing := (1, 1, 1)
  direction := [1, 0, 0, 0, 1, 0, 0, 0, 1]
  dtype := "int16"

/-- Claim C9: the body-mask bounding box is computed and recorded as the
    metadata's last element for every configuration, including
    enable_bounding = false; save always writes the denormalized tensor into
    exactly the recorded box region of the full canvas and the air sentinel
    elsewhere; with bounding enabled the returned tensor's shape equals the
    recorded box's shape, while with bounding disabled it can differ
    (witnessed by a concrete volume), so shape and box agree only under
    bounding. -/
theorem claim_C9_bounds_recorded_and_used (cfg : InfCfg) (path : String)
    (v0 : SitkVolume) (t : ArrQ) (m : Metadata) (i j k : ℕ) :
    ((infGetitem cfg path v0).2.bounds
      = (get_body_mask_and_bound
          (truncate_CBCT_based_on_fov (sub1024 v0)).arr
          cfg.cbct_mask_threshold).2)
    ∧ ((saveCanvas cfg.hu_min cfg.hu_max t m.size m.bounds).val i j k
        = if inBox m.bounds i j k then
            min_max_denormalize
              (t.val (i - m.bounds.1.1) (j - m.bounds.2.1.1)
                (k - m.bounds.2.2.1)) cfg.hu_min cfg.hu_max
          else -1024)
    ∧ (cfg.enable_bounding = true →
        (infGetitem cfg path v0).1.shape
          = boxShape (infGetitem cfg path v0).2.bounds)
    ∧ ((infGetitem cfgInfNoBound "p" cbctDimBody).1.shape
        ≠ boxShape (infGetitem cfgInfNoBound "p" cbctDimBody).2.bounds) := by
  refine ⟨rfl, ?_, ?_, ?_⟩
  · simp only [saveCanvas, writeAtQ]
  · intro hb
    simp only [infGetitem, hb, if_true, normalizeArr, clampArr, mapArr,
      cropBox, boxShape]
  · decide

/-- Witness for C9: with the default inference configuration (bounding
    enabled) the returned tensor's shape equals the recorded box's shape on
    the concrete cbctDimBody volume. -/
theorem claim_C9_bounds_recorded_and_used_witness :
    (infGetitem cfgInf "p" cbctDimBody).1.shape
      = boxShape (infGetitem cfgInf "p" cbctDimBody).2.bounds :=
  (claim_C9_bounds_recorded_and_used cfgInf "p" cbctDimBody
    ⟨(1, 1, 1), fun _ _ _ => 0⟩
    ⟨"p", (1, 1, 3), (0, 0, 0), (1, 1, 1), [1], "int16",
      ((1, 2), (0, 1), (0, 1))⟩ 0 0 0).2.2.1 rfl

-- ---------------------------------------------------------------------------
-- Dataset construction: CBCTtoCTDataset.__init__ (cbcttoct_dataset.py 48-76)
-- ---------------------------------------------------------------------------

/-- A patient case directory under the dataset root: its two modality
    subdirectories each hold a list of file stems, or are absent. -/
structure PatientDir where
  name : String
  cbct : Option (List String)
  ct : Option (List String)
deriving DecidableEq

/-- Modelled from the spec: `make_recursive_dataset_of_files` of
    midaGAN.utils.io (file not among the sources), applied to a modality
    subdirectory of a patient case.  §7: a case missing one of its two
    modality directories is a structural mismatch, fatal and raised
    immediately at construction — scanning an absent directory raises.
    Entries are the stems of the recursively collected .nrrd files. -/
def make_recursive_dataset_of_files :
    Option (List String) → Except Unit (List String)
  | none => Except.error ()
  | some fs => Except.ok fs

/-- The per-patient scanning loop of CBCTtoCTDataset.__init__ (lines 55-58):
    for every patient, collect the CBCT files and the CT files whose stem is
    "CT"; a failing scan aborts construction. -/
def scanPatients : List PatientDir →
    Except Unit (List (String × List String) × List (String × List String))
  | [] => Except.ok ([], [])
  | p :: rest =>
    match make_recursive_dataset_of_files p.cbct,
        make_recursive_dataset_of_files p.ct with
    | Except.ok cb, Except.ok cts =>
      match scanPatients rest with
      | Except.ok ms =>
        Except.ok ((p.name, cb) :: ms.1,
          (p.name, cts.filter (fun s => s = "CT")) :: ms.2)
      | Except.error e => Except.error e
    | _, _ => Except.error ()

/-- CBCTtoCTDataset.__init__, lines 48-63: build the two per-patient path
    dictionaries and assert that their lengths match. -/
def CBCTtoCTDataset_init (patients : List PatientDir) :
    Except Unit (List (String × List String) × List (String × List String)) :=
  match scanPatients patients with
  | Except.ok ms =>
    if ms.1.length = ms.2.length then Except.ok ms else Except.error ()
  | Except.error e => Except.error e

lemma scanPatients_error (patients : List PatientDir) (p : PatientDir)
    (hmem : p ∈ patients) (hmiss : p.cbct = none ∨ p.ct = none) :
    scanPatients patients = Except.error () := by
  induction patients with
  | nil => cases hmem
  | cons q rest ih =>
    rcases List.mem_cons.mp hmem with hq | hrest
    · subst hq
      rcases hmiss with hc | hc <;>
        · rw [scanPatients, hc]
          rcases make_recursive_dataset_of_files p.ct with _ | _ <;>
            rcases make_recursive_dataset_of_files p.cbct with _ | _ <;> rfl
    · rw [scanPatients]
      rcases make_recursive_dataset_of_files q.cbct with _ | cb
      · rfl
      · rcases make_recursive_dataset_of_files q.ct with _ | cts
        · rfl
        · rw [ih hrest]

/-- Claim C8: if a patient case is missing one of its two modality
    directories (CBCT or CT), CBCTtoCTDataset construction raises
    immediately — the constructor yields an error and no dataset object, so
    no training item can ever be served. -/
theorem claim_C8_missing_modality_fatal (patients : List PatientDir)
    (p : PatientDir) (hmem : p ∈ patients)
    (hmiss : p.cbct = none ∨ p.ct = none) :
    CBCTtoCTDataset_init patients = Except.error () := by
  rw [CBCTtoCTDataset_init, scanPatients_error patients p hmem hmiss]

/-- Witness for C8: a dataset of one patient whose CBCT directory is absent
    fails to construct. -/
theorem claim_C8_missing_modality_fatal_witness :
    CBCTtoCTDataset_init [PatientDir.mk "patient1" none (some ["CT"])]
      = Except.error () :=
  claim_C8_missing_modality_fatal
    [PatientDir.mk "patient1" none (some ["CT"])]
    (PatientDir.mk "patient1" none (some ["CT"]))
    (List.mem_singleton.mpr rfl) (Or.inl rfl)

-- ---------------------------------------------------------------------------
-- NpyUnaligned3dDataset (data/npy_unaligned_3d_dataset.py)
-- ---------------------------------------------------------------------------

/-- Modelled from the spec: `normalize_from_hu` of util.preprocessing (file
    not among the sources); the Normalizer of §4.6 over the dataset's stored
    per-modality value range. -/
def normalize_from_hu (a : Arr3) (lo hi : ℤ) : ArrQ :=
  normalizeArr a lo hi

/-- NpyUnaligned3dDataset.__getitem__, lines 32-59: the two loaded arrays
    stand for np.load of the chosen A and B paths and (normA, normB) for the
    per-modality ranges read from normalize_A.json / normalize_B.json.  After
    extracting the patch pair and normalizing, the source writes debug PNG
    slices and executes a bare `return` (line 53) — the function yields None;
    the statement returning the A/B dictionary (lines 56-59) sits below that
    unconditional return and is unreachable, so it is absent here. -/
def npyGetitem (A B : Arr3) (patch : ℕ × ℕ × ℕ) (p : ℚ) (r : ℚ × ℚ × ℚ)
    (normA normB : ℤ × ℤ) : Option (ArrQ × ArrQ) :=
  let pair := get_patch_pair patch p r A B
  let a := normalize_from_hu pair.1 normA.1 normA.2
  let b := normalize_from_hu pair.2 normB.1 normB.2
  none

/-- Claim C10: NpyUnaligned3dDataset.__getitem__ returns None on every index:
    the bare return on line 53 precedes the dictionary return, which is
    therefore unreachable. -/
theorem claim_C10_npy_getitem_returns_none (A B : Arr3)
    (patch : ℕ × ℕ × ℕ) (p : ℚ) (r : ℚ × ℚ × ℚ) (normA normB : ℤ × ℤ) :
    npyGetitem A B patch p r normA normB = none := rfl
